import Mathlib

/-!
Shallow embedding of the playwrightauthor browser-session supervisor core
(`src/playwrightauthor`): the connection retry layer (`connection.py`),
the crash-restart handler (`author.py` / `monitoring.py`), the persisted
state store (`state_manager.py`), the binary finder (`browser/finder.py`)
and the launcher (`browser/launcher.py`, `browser/process.py`).

Python dicts are modelled as association lists, JSON values as an
inductive type, machine integers as `Nat`/`Int`, float delays as `ℚ`, and
raised exceptions as `Except` over an inductive error type whose
constructors mirror the exception classes of `exceptions.py`.
-/

namespace PlaywrightAuthor

/-! ## String helpers: Python `in` (substring) and `str.lower()` -/

/-- Substring test on character lists: Python `sub in s`. -/
def listContainsSub : List Char → List Char → Bool
  | s, sub =>
    if sub.isPrefixOf s then true
    else
      match s with
      | [] => false
      | _ :: t => listContainsSub t sub

/-- Python `sub in s` on strings. -/
def strContains (s sub : String) : Bool :=
  listContainsSub s.data sub.data

/-- Python `s.lower()` (character-wise; every string the embedded code
lowercases is ASCII). -/
def pyLower (s : String) : String :=
  ⟨s.data.map Char.toLower⟩

/-! ## Error taxonomy (`exceptions.py`)

Each constructor carries the raw `message` passed to the exception
constructor.  `pyTypeError` / `pyAttributeError` stand for uncaught
built-in Python exceptions. -/

/-- Exceptions raised by the embedded code. -/
inductive PAErr where
  | browserManagerError (message : String)
  | browserLaunchError (message : String)
  | timeoutError (message : String)
  | connectionError (message : String)
  | profileError (message : String)
  | pyTypeError
  | pyAttributeError
deriving DecidableEq, Repr

/-- `str(e)` for the `TimeoutError` class of `exceptions.py` constructed
with default suggestion and command (as `wait_for_process_start` does):
the decorated `full_message` built in `PlaywrightAuthorError.__init__`. -/
def timeoutErrorStr (message : String) : String :=
  "❌ " ++ message ++
  "\n\n💡 Suggestion: Increase timeout values or check system performance. For slow networks, consider increasing network timeout settings." ++
  "\n\n🔧 Try running: export PLAYWRIGHTAUTHOR_TIMEOUT=60000 && playwrightauthor status" ++
  "\n\n📚 Learn more: https://github.com/twardoch/playwrightauthor#troubleshooting"

/-- `str(e)` for the `ConnectionError` class of `exceptions.py`
constructed with only a message (suggestion and command chosen from the
message content, help link fixed), per `ConnectionError.__init__` and
`PlaywrightAuthorError.__init__`. -/
def connectionErrorStr (message : String) : String :=
  let suggestion :=
    if strContains (pyLower message) "refused" || strContains (pyLower message) "connect" then
      "Cannot connect to Chrome. Make sure Chrome is running with remote debugging enabled. PlaywrightAuthor should start it automatically."
    else if strContains (pyLower message) "timeout" then
      "Connection to Chrome timed out. Chrome may be slow to start or unresponsive. Try increasing the timeout or checking system resources."
    else
      "Failed to connect to Chrome. Run diagnostics to check the browser status and ensure no firewall is blocking local connections."
  let command :=
    if strContains (pyLower message) "refused" || strContains (pyLower message) "connect" then
      "playwrightauthor diagnose  # Check Chrome status"
    else if strContains (pyLower message) "timeout" then
      "playwrightauthor status -v  # Verbose mode for details"
    else
      "playwrightauthor diagnose"
  "❌ " ++ message ++
  "\n\n💡 Suggestion: " ++ suggestion ++
  "\n\n🔧 Try running: " ++ command ++
  "\n\n📚 Learn more: https://github.com/twardoch/playwrightauthor/blob/main/docs/connection-issues.md"

/-! ## JSON values and Python dicts (association lists) -/

/-- A parsed JSON value (`json.load` result). Numbers are modelled as
integers, which covers every number the state store itself writes. -/
inductive JValue where
  | null
  | bool (b : Bool)
  | num (n : Int)
  | str (s : String)
  | arr (xs : List JValue)
  | obj (kvs : List (String × JValue))

/-- A Python dict with string keys, in insertion order. -/
abbrev JObj := List (String × JValue)

/-- `d.get(k)` / `d[k]`: first binding wins (keys are unique in dicts
produced by `json.load`). -/
def lookupKey (kvs : JObj) (k : String) : Option JValue :=
  match kvs with
  | [] => none
  | (k', v) :: t => if k' = k then some v else lookupKey t k

/-- `k in d`. -/
def hasKey (kvs : JObj) (k : String) : Bool :=
  (lookupKey kvs k).isSome

/-- `d[k] = v`: replace the first binding of `k` in place, else append
(Python dict update preserves insertion order and appends new keys). -/
def setKey (kvs : JObj) (k : String) (v : JValue) : JObj :=
  match kvs with
  | [] => [(k, v)]
  | (k', v') :: t => if k' = k then (k', v) :: t else (k', v') :: setKey t k v

/-- `del d[k]`: remove the first binding of `k`. -/
def eraseKey (kvs : JObj) (k : String) : JObj :=
  match kvs with
  | [] => []
  | (k', v') :: t => if k' = k then t else (k', v') :: eraseKey t k

/-! ## State store (`state_manager.py`) -/

/-- `StateManager.CURRENT_VERSION`. -/
def CURRENT_VERSION : Int := 1

/-- `StateManager._default_profile()`; `now` stands for
`datetime.now().isoformat()`. -/
def default_profile (now : String) : JValue :=
  .obj [("created", .str now), ("last_used", .str now),
        ("user_data_dir", .null), ("preferences", .obj []),
        ("extensions", .arr []), ("auth_state", .obj [])]

/-- `StateManager._default_state()`. -/
def default_state (now : String) : JObj :=
  [("version", .num CURRENT_VERSION), ("last_updated", .str now),
   ("chrome_path", .null), ("chrome_version", .null),
   ("profiles", .obj [("default", default_profile now)]),
   ("default_profile", .str "default"), ("config", .obj [])]

/-- Condition of the backing `browser_state.json` file as seen by
`load_state`: absent, raising `OSError` on read, raising
`json.JSONDecodeError` on parse, or parsed to a JSON value. -/
inductive FileCond where
  | absent
  | unreadable
  | invalidJson
  | content (j : JValue)

/-- `state.get("version", 0)` compared against an `int`: missing keys
default to `0`, Python `bool` is an `int` subclass, any other value makes
the `<` comparison raise `TypeError` (which `load_state` does not
catch). -/
def getVersion (kvs : JObj) : Except PAErr Int :=
  match lookupKey kvs "version" with
  | none => .ok 0
  | some (.num n) => .ok n
  | some (.bool b) => .ok (if b then 1 else 0)
  | some _ => .error .pyTypeError

/-- `StateManager._migrate_state` for `version < 1`: fill in missing
`profiles` / `default_profile` / `config` keys, then stamp the current
version. -/
def migrate_state (now : String) (kvs : JObj) : JObj :=
  let kvs := if hasKey kvs "profiles" then kvs
             else setKey kvs "profiles" (.obj [("default", default_profile now)])
  let kvs := if hasKey kvs "default_profile" then kvs
             else setKey kvs "default_profile" (.str "default")
  let kvs := if hasKey kvs "config" then kvs
             else setKey kvs "config" (.obj [])
  setKey kvs "version" (.num CURRENT_VERSION)

/-- `StateManager.load_state`: absent file and caught `OSError` /
`JSONDecodeError` fall back to the default state; a parsed non-dict value
raises `AttributeError` at `state.get` (uncaught); a dict with version
below the current one is migrated, otherwise returned as-is. -/
def load_state (now : String) (f : FileCond) : Except PAErr JObj :=
  match f with
  | .absent => .ok (default_state now)
  | .unreadable => .ok (default_state now)
  | .invalidJson => .ok (default_state now)
  | .content j =>
    match j with
    | .obj kvs =>
      match getVersion kvs with
      | .error e => .error e
      | .ok v => if v < CURRENT_VERSION then .ok (migrate_state now kvs) else .ok kvs
    | _ => .error .pyAttributeError

/-- Result of an operation that may write the state file: the raised or
returned value, and the object written to disk if a write happened. -/
structure WriteResult (α : Type) where
  result : Except PAErr α
  written : Option JObj

/-- `StateManager.save_state`: stamp `version` with the current schema
version and `last_updated` with a fresh timestamp, then write atomically;
an `OSError` during the write (`writeErr`) is re-raised as
`BrowserManagerError` and nothing replaces the old file. -/
def save_state (now : String) (st : JObj) (writeErr : Option String) : WriteResult Unit :=
  let st := setKey st "version" (.num CURRENT_VERSION)
  let st := setKey st "last_updated" (.str now)
  match writeErr with
  | none => ⟨.ok (), some st⟩
  | some e => ⟨.error (.browserManagerError ("Failed to save browser state: " ++ e)), none⟩

/-- Python `name in profiles` where `profiles` is an arbitrary JSON
value: key membership for dicts, element membership for lists, substring
for strings, `TypeError` otherwise. -/
def pyIn (name : String) : JValue → Except PAErr Bool
  | .obj kvs => .ok (hasKey kvs name)
  | .arr xs =>
    .ok (xs.any fun x =>
      match x with
      | .str s => s = name
      | _ => false)
  | .str s => .ok (strContains s name)
  | _ => .error .pyTypeError

/-- `StateManager.delete_profile`: deleting `"default"` raises
`BrowserManagerError` before touching the state; an unknown name only
logs a warning; a present name is removed and the state saved. -/
def delete_profile (now : String) (f : FileCond) (name : String)
    (writeErr : Option String) : WriteResult Unit :=
  if name = "default" then
    ⟨.error (.browserManagerError "Cannot delete the default profile"), none⟩
  else
    match load_state now f with
    | .error e => ⟨.error e, none⟩
    | .ok st =>
      let profiles := (lookupKey st "profiles").getD (.obj [])
      match pyIn name profiles with
      | .error e => ⟨.error e, none⟩
      | .ok mem =>
        if mem then
          match profiles with
          | .obj pkvs =>
            let st' := setKey st "profiles" (.obj (eraseKey pkvs name))
            save_state now st' writeErr
          | _ => ⟨.error .pyTypeError, none⟩
        else
          ⟨.ok (), none⟩

/-- Does a loaded state contain the `"default"` profile in its profiles
map? -/
def hasDefaultProfile (st : JObj) : Bool :=
  match lookupKey st "profiles" with
  | some (.obj ps) => hasKey ps "default"
  | _ => false

/-! ## Connection retry (`connection.py`)

`connect_with_retry` is driven by two oracles: `health i` is the outcome
of the CDP health check performed on loop iteration `i` (`unhealthy`
carries `diagnostics.get("error", "Unknown error")`), and `attach i` is
the outcome of `playwright_browser.connect_over_cdp` on iteration `i`
(`.error` carries `str` of the exception).  Sleeps are recorded as exact
rationals. -/

/-- Outcome of `check_connection_health` on one attempt. -/
inductive HealthCheck where
  | healthy
  | unhealthy (detail : String)

/-- The error message built when the health check reports the port
unreachable, including the refused/timeout guidance suffixes. -/
def cdpUnreachableMsg (port : Nat) (detail : String) : String :=
  let base := "Cannot connect to Chrome DevTools Protocol on port " ++ toString port
  if strContains (pyLower detail) "refused" then base ++ " - Connection refused"
  else if strContains (pyLower detail) "timeout" then base ++ " - Connection timeout"
  else base

/-- The message built in the `except` handler of `connect_with_retry`
from `str(e)` of the caught exception. -/
def rewrapMsg (port : Nat) (timeout : ℚ) (errorStr : String) : String :=
  let base := "Failed to connect to Chrome on port " ++ toString port
  if strContains errorStr "connect_over_cdp" then
    base ++ " - Playwright connection failed"
  else if strContains (pyLower errorStr) "timeout" then
    base ++ " - Connection timed out after " ++ toString timeout ++ "s"
  else
    base ++ " - " ++ errorStr

/-- The message of the fallback error raised when the loop somehow ends
with `last_error` unset (unreachable from the loop body). -/
def exhaustedDefaultMsg (port maxRetries : Nat) : String :=
  "Failed to connect to Chrome on port " ++ toString port ++ " after " ++
  toString (maxRetries + 1) ++ " attempts. Chrome may not be running or the debug port may be blocked."

/-- The error finally raised when the port never becomes reachable: the
intermediate `ConnectionError` built from the last health-check detail is
re-raised at the final attempt, caught by the `except` handler, and its
decorated `str` is wrapped once more. -/
def unreachableFinalError (port : Nat) (timeout : ℚ) (detail : String) : PAErr :=
  .connectionError (rewrapMsg port timeout (connectionErrorStr (cdpUnreachableMsg port detail)))

/-- Trace of one `connect_with_retry` run: how many loop iterations
(health-check attempts) ran, the sleeps performed between attempts, and
the returned session or raised error. -/
structure ConnectResult (β : Type) where
  attempts : Nat
  sleeps : List ℚ
  outcome : Except PAErr β

/-- One loop iteration of `connect_with_retry`, fuel-indexed: `attempt`
is the Python loop variable, `lastError` the `last_error` local.  The
fuel starts at `max_retries + 1` and the loop always returns or raises
before it runs out; the fuel-zero case mirrors the `raise last_error or
...` after the loop. -/
def connectGo (health : Nat → HealthCheck) (attach : Nat → Except String β)
    (port maxRetries : Nat) (retryDelay timeout : ℚ) :
    Nat → Nat → Option PAErr → ConnectResult β
  | 0, _, lastError =>
    ⟨0, [], .error (lastError.getD (.connectionError (exhaustedDefaultMsg port maxRetries)))⟩
  | fuel + 1, attempt, _ =>
    match health attempt with
    | .unhealthy detail =>
      let e := PAErr.connectionError (cdpUnreachableMsg port detail)
      if attempt < maxRetries then
        let r := connectGo health attach port maxRetries retryDelay timeout fuel (attempt + 1) (some e)
        ⟨r.attempts + 1, retryDelay * 2 ^ attempt :: r.sleeps, r.outcome⟩
      else
        -- `raise last_error` is caught by the surrounding `except`, which
        -- rebuilds the message from `str(e)` and then breaks out of the loop.
        ⟨1, [], .error (.connectionError
          (rewrapMsg port timeout (connectionErrorStr (cdpUnreachableMsg port detail))))⟩
    | .healthy =>
      match attach attempt with
      | .ok s => ⟨1, [], .ok s⟩
      | .error estr =>
        let e := PAErr.connectionError (rewrapMsg port timeout estr)
        if attempt < maxRetries then
          let r := connectGo health attach port maxRetries retryDelay timeout fuel (attempt + 1) (some e)
          ⟨r.attempts + 1, retryDelay * 2 ^ attempt :: r.sleeps, r.outcome⟩
        else
          ⟨1, [], .error e⟩

/-- `connect_with_retry(playwright_browser, debug_port, max_retries,
retry_delay, timeout)`. -/
def connect_with_retry (health : Nat → HealthCheck) (attach : Nat → Except String β)
    (port maxRetries : Nat) (retryDelay timeout : ℚ) : ConnectResult β :=
  connectGo health attach port maxRetries retryDelay timeout (maxRetries + 1) 0 none

/-! ## Crash handling (`author.py` / `monitoring.py`)

`BrowserMonitor._handle_crash` invokes the `on_crash` callback
(`Browser._handle_browser_crash`) on every detected crash, swallowing
exceptions from it.  The handler keeps `self._restart_count` on the
`Browser` object; on a failed restart attempt it maxes the counter out to
prevent further attempts. -/

/-- The monitoring configuration fields read by
`Browser._handle_browser_crash`. -/
structure CrashConfig where
  enableCrashRecovery : Bool
  maxRestartAttempts : Nat
deriving DecidableEq, Repr

/-- One invocation of `Browser._handle_browser_crash`: given whether the
restart body (ensure + reconnect + re-arm) would succeed, step the
restart counter and report whether the restart action was executed. -/
def handle_browser_crash (cfg : CrashConfig) (restartSucceeds : Bool)
    (restartCount : Nat) : Nat × Bool :=
  if !cfg.enableCrashRecovery then (restartCount, false)
  else if cfg.maxRestartAttempts ≤ restartCount then (restartCount, false)
  else if restartSucceeds then (restartCount + 1, true)
  else (cfg.maxRestartAttempts, true)

/-- `n` consecutive detected crashes, each forwarded by the monitor to
the crash handler; `outcomes i` tells whether the restart attempted on
crash `i` (if any) succeeds.  Returns the final restart counter and the
number of executed restart actions. -/
def runCrashes (cfg : CrashConfig) (outcomes : Nat → Bool) : Nat → Nat × Nat
  | 0 => (0, 0)
  | n + 1 =>
    let p := runCrashes cfg outcomes n
    let s := handle_browser_crash cfg (outcomes n) p.1
    (s.1, if s.2 then p.2 + 1 else p.2)

/-! ## Binary discovery (`browser/finder.py`) -/

/-- The filesystem checks `find_chrome_executable` performs on a path. -/
structure FS where
  pathExists : String → Bool
  isFile : String → Bool
  accessX : String → Bool

/-- `sys.platform` as the finder distinguishes it. -/
inductive Platform where
  | darwin
  | win32
  | linux
  | unsupported
deriving DecidableEq, Repr

/-- The per-candidate check: existence, regular file, and (off Windows)
the executable bit. -/
def candidateOk (fs : FS) (isWin : Bool) (p : String) : Bool :=
  fs.pathExists p && fs.isFile p && (isWin || fs.accessX p)

/-- The candidate-enumeration loop: first qualifying path wins. -/
def searchCandidates (fs : FS) (isWin : Bool) : List String → Option String
  | [] => none
  | p :: rest =>
    if candidateOk fs isWin p then some p else searchCandidates fs isWin rest

/-- `StateManager.get_chrome_path`: the cached path only if it still
exists on disk. -/
def get_chrome_path (fs : FS) (cache : Option String) : Option String :=
  match cache with
  | some p => if fs.pathExists p then some p else none
  | none => none

/-- Result of one `find_chrome_executable` call: the returned path, the
cached path in the state store afterwards, and whether the
platform-candidate enumeration ran. -/
structure LocateResult where
  result : Option String
  cacheAfter : Option String
  searched : Bool
deriving DecidableEq, Repr

/-- The cached-path branch of `find_chrome_executable`: read the cached
path through `get_chrome_path` and accept it only if it still exists on
disk; any failure reading the store (`cacheLoadOk = false`) is swallowed
and falls through. -/
def cachedLookup (fs : FS) (cache : Option String) (cacheLoadOk useCache : Bool) :
    Option String :=
  if useCache && cacheLoadOk then
    match get_chrome_path fs cache with
    | some p => if fs.pathExists p then some p else none
    | none => none
  else none

/-- `find_chrome_executable(logger, use_cache)`: try the cached path
first, else enumerate the platform candidates; a found candidate is
written back to the store (`cacheWriteOk = false` models
`_cache_chrome_path` swallowing a store failure). -/
def find_chrome_executable (fs : FS) (plat : Platform) (candidates : List String)
    (cache : Option String) (cacheLoadOk cacheWriteOk useCache : Bool) : LocateResult :=
  match cachedLookup fs cache cacheLoadOk useCache with
  | some p => ⟨some p, cache, false⟩
  | none =>
    if plat = .unsupported then ⟨none, cache, false⟩
    else
      match searchCandidates fs (plat = .win32) candidates with
      | some p => ⟨some p, if cacheWriteOk then some p else cache, true⟩
      | none => ⟨none, cache, true⟩

/-! ## Launch (`browser/launcher.py`, `browser/process.py`) -/

/-- The fixed behaviour of the OS environment during one `launch_chrome`
call: whether `subprocess.Popen` succeeds, the exit code observed by
`process.poll()` after the one-second grace sleep (`none` = still
alive), what `get_chrome_process(port)` finds on each poll of
`wait_for_process_start`, and whether the best-effort cleanup
termination succeeds (its failures are swallowed). -/
structure ProcEnv where
  spawnOk : Bool
  exitedDuringGrace : Option Int
  findProc : Nat → Option Nat
  terminateOk : Bool

/-- The Chrome-for-Testing identity check on the executable path. -/
def launchNameOk (browserPath : String) : Bool :=
  strContains (pyLower browserPath) "chrome for testing" ||
  strContains (pyLower browserPath) "chrome-"

/-- The `TimeoutError` message raised by `wait_for_process_start`. -/
def waitTimeoutMsg (port timeout : Nat) : String :=
  "Chrome for Testing process with debug port " ++ toString port ++
  " did not start within " ++ toString timeout ++ "s"

/-- `wait_for_process_start(port, timeout)`: poll `get_chrome_process`
until it returns a process; the number of polls the wall-clock window
admits is abstracted as `numPolls`. -/
def wait_for_process_start (findProc : Nat → Option Nat) (port timeout : Nat) :
    Nat → Except PAErr Nat
  | 0 => .error (.timeoutError (waitTimeoutMsg port timeout))
  | fuel + 1 =>
    match findProc fuel with
    | some pid => .ok pid
    | none => wait_for_process_start findProc port timeout fuel

/-- Result of `launch_chrome`: the returned process pid or raised error,
plus how many debug-port polls were performed (`0` = the port-readiness
wait never ran). -/
structure LaunchResult where
  outcome : Except PAErr Nat
  portPolls : Nat

/-- Number of polls `wait_for_process_start` actually performs before
returning. -/
def pollsUsed (findProc : Nat → Option Nat) : Nat → Nat
  | 0 => 0
  | fuel + 1 =>
    match findProc fuel with
    | some _ => 1
    | none => 1 + pollsUsed findProc fuel

/-- `launch_chrome(browser_path, data_dir, port, logger, timeout)`:
reject non-Chrome-for-Testing paths, spawn detached, fail fast if the
process exited during the grace period, then wait for the debug port;
on timeout, terminate the process best-effort (failures logged, not
raised) and raise `BrowserLaunchError` wrapping the `TimeoutError`. -/
def launch_chrome (browserPath : String) (env : ProcEnv) (port timeout numPolls : Nat) :
    LaunchResult :=
  if !launchNameOk browserPath then
    ⟨.error (.browserLaunchError
      ("Invalid Chrome executable: " ++ browserPath ++
       "\nPlaywrightAuthor requires Chrome for Testing, not regular Chrome.\nRegular Chrome no longer supports CDP automation with user profiles.")), 0⟩
  else if !env.spawnOk then
    ⟨.error (.browserLaunchError "Failed to launch Chrome: OSError"), 0⟩
  else
    match env.exitedDuringGrace with
    | some code =>
      ⟨.error (.browserLaunchError
        ("Chrome process exited immediately with code " ++ toString code)), 0⟩
    | none =>
      match wait_for_process_start env.findProc port timeout numPolls with
      | .ok pid => ⟨.ok pid, pollsUsed env.findProc numPolls⟩
      | .error e =>
        -- cleanup of the still-running process; `terminateOk = false` is
        -- swallowed by the bare `except` around `process.terminate()`
        match e with
        | .timeoutError msg =>
          ⟨.error (.browserLaunchError
            ("Chrome launch verification failed: " ++ timeoutErrorStr msg)),
           pollsUsed env.findProc numPolls⟩
        | other => ⟨.error other, pollsUsed env.findProc numPolls⟩

/-- Is a raised error a `TimeoutError`? -/
def isTimeoutError : Except PAErr Nat → Bool
  | .error (.timeoutError _) => true
  | _ => false

/-- Is a raised error a `ProfileError`? -/
def isProfileError : Except PAErr Unit → Bool
  | .error (.profileError _) => true
  | _ => false

/-! ## Dictionary lemmas -/

theorem lookupKey_setKey_self (l : JObj) (k : String) (v : JValue) :
    lookupKey (setKey l k v) k = some v := by
  induction l with
  | nil => simp [setKey, lookupKey]
  | cons kv t ih =>
    obtain ⟨k', v'⟩ := kv
    by_cases h : k' = k
    · simp [setKey, lookupKey, h]
    · simp [setKey, lookupKey, h, ih]

theorem lookupKey_setKey_ne (l : JObj) (k k' : String) (v : JValue) (h : k' ≠ k) :
    lookupKey (setKey l k' v) k = lookupKey l k := by
  induction l with
  | nil => simp [setKey, lookupKey, h]
  | cons kv t ih =>
    obtain ⟨k'', v''⟩ := kv
    by_cases h2 : k'' = k'
    · subst h2
      simp [setKey, lookupKey, h]
    · by_cases h3 : k'' = k
      · simp [setKey, lookupKey, h2, h3, Ne.symm h]
      · simp [setKey, lookupKey, h2, h3, ih]

/-- After `_migrate_state` inserts the missing `profiles` key, the
profiles map is the fresh one with only `"default"`. -/
theorem lookupKey_migrate_profiles (now : String) (kvs : JObj)
    (h : hasKey kvs "profiles" = false) :
    lookupKey (migrate_state now kvs) "profiles"
      = some (.obj [("default", default_profile now)]) := by
  unfold migrate_state
  rw [h]
  simp only [Bool.false_eq_true, if_false]
  rw [lookupKey_setKey_ne _ _ "version" _ (by decide)]
  split
  · split
    · exact lookupKey_setKey_self kvs "profiles" _
    · rw [lookupKey_setKey_ne _ _ "config" _ (by decide)]
      exact lookupKey_setKey_self kvs "profiles" _
  · split
    · rw [lookupKey_setKey_ne _ _ "default_profile" _ (by decide)]
      exact lookupKey_setKey_self kvs "profiles" _
    · rw [lookupKey_setKey_ne _ _ "config" _ (by decide),
          lookupKey_setKey_ne _ _ "default_profile" _ (by decide)]
      exact lookupKey_setKey_self kvs "profiles" _

/-! ## Claim theorems -/

/-- Claim C6: for every backing-file condition in the claim (file
absent, unreadable, or containing invalid JSON), `load_state` never
raises and returns a freshly initialized default state. -/
theorem c6_load_state_fallback (now : String) :
    load_state now .absent = .ok (default_state now) ∧
    load_state now .unreadable = .ok (default_state now) ∧
    load_state now .invalidJson = .ok (default_state now) :=
  ⟨rfl, rfl, rfl⟩

/-- Claim C9: whatever version the input state carries, the object
`save_state` writes to disk has `version = CURRENT_VERSION` (1) and a
freshly generated `last_updated`; and when the write raises, nothing is
written at all. -/
theorem c9_save_state_stamps_version (now : String) (st : JObj) (e : String) :
    (∃ w, (save_state now st none).written = some w ∧
      lookupKey w "version" = some (.num CURRENT_VERSION) ∧
      lookupKey w "last_updated" = some (.str now)) ∧
    (save_state now st (some e)).written = none := by
  refine ⟨⟨setKey (setKey st "version" (.num CURRENT_VERSION)) "last_updated" (.str now),
    rfl, ?_, ?_⟩, rfl⟩
  · rw [lookupKey_setKey_ne _ _ "last_updated" _ (by decide)]
    exact lookupKey_setKey_self st "version" _
  · exact lookupKey_setKey_self _ "last_updated" _

/-- Claim C3 counterexample: `delete_profile("default")` raises
`BrowserManagerError`, not `ProfileError` as the claim states. -/
theorem c3_counterexample :
    (delete_profile "t0" .absent "default" none).result
      = .error (.browserManagerError "Cannot delete the default profile") ∧
    isProfileError (delete_profile "t0" .absent "default" none).result = false :=
  ⟨rfl, rfl⟩

/-- Claim C3 (amended): for every persisted state, deleting the
`"default"` profile fails with `BrowserManagerError` and leaves the
persisted state completely unchanged (nothing is written). -/
theorem c3_delete_default_protected (now : String) (f : FileCond) (we : Option String) :
    delete_profile now f "default" we
      = ⟨.error (.browserManagerError "Cannot delete the default profile"), none⟩ :=
  rfl

/-- Claim C10: deleting a non-`"default"` name that is absent from the
profiles map returns normally and performs no write. -/
theorem c10_delete_missing_profile (now : String) (f : FileCond) (we : Option String)
    (name : String) (st : JObj) (pkvs : List (String × JValue))
    (hname : name ≠ "default")
    (hload : load_state now f = .ok st)
    (hprof : (lookupKey st "profiles").getD (.obj []) = .obj pkvs)
    (hmem : hasKey pkvs name = false) :
    delete_profile now f name we = ⟨.ok (), none⟩ := by
  unfold delete_profile
  rw [if_neg hname, hload]
  simp only [hprof, pyIn, hmem, Bool.false_eq_true, if_false]

/-- Witness for C10 at a concrete input. -/
theorem c10_delete_missing_profile_witness :
    delete_profile "t0" .absent "ghost" none = ⟨.ok (), none⟩ :=
  c10_delete_missing_profile "t0" .absent none "ghost" (default_state "t0")
    [("default", default_profile "t0")] (by decide) rfl rfl rfl

/-- Claim C7 counterexample: a backing file already at the current
schema version whose profiles map is empty is returned by `load_state`
unchanged, without the `"default"` profile. -/
theorem c7_counterexample :
    load_state "t0" (.content (.obj [("version", .num 1), ("profiles", .obj [])]))
      = .ok [("version", .num 1), ("profiles", .obj [])] ∧
    hasDefaultProfile [("version", .num 1), ("profiles", .obj [])] = false :=
  ⟨rfl, rfl⟩

/-- Claim C7 (amended): the state returned by `load_state` contains the
`"default"` profile whenever the profiles map was not itself read from
the file: for absent, unreadable, or invalid-JSON files, and for
below-current-version objects that lack a `profiles` key; a profiles map
read from the file is returned unchanged and may lack `"default"`. -/
theorem c7_default_profile_present (now : String) (f : FileCond)
    (h : f = .absent ∨ f = .unreadable ∨ f = .invalidJson ∨
      ∃ kvs v, f = .content (.obj kvs) ∧ getVersion kvs = .ok v ∧
        v < CURRENT_VERSION ∧ hasKey kvs "profiles" = false) :
    ∃ st, load_state now f = .ok st ∧ hasDefaultProfile st = true := by
  rcases h with h | h | h | ⟨kvs, v, h, hv, hlt, hprof⟩
  · exact ⟨default_state now, by rw [h]; rfl, rfl⟩
  · exact ⟨default_state now, by rw [h]; rfl, rfl⟩
  · exact ⟨default_state now, by rw [h]; rfl, rfl⟩
  · refine ⟨migrate_state now kvs, ?_, ?_⟩
    · rw [h]
      simp only [load_state, hv, if_pos hlt]
    · unfold hasDefaultProfile
      rw [lookupKey_migrate_profiles now kvs hprof]
      rfl

/-- Witness for C7 at a concrete input. -/
theorem c7_default_profile_present_witness :
    ∃ st, load_state "t0" .absent = .ok st ∧ hasDefaultProfile st = true :=
  c7_default_profile_present "t0" .absent (Or.inl rfl)

/-- When crash recovery is enabled and every restart attempt succeeds,
the counter and the number of executed restarts both track
`min k maxA`. -/
theorem runCrashes_all_succeed (maxA : Nat) (outcomes : Nat → Bool)
    (hsucc : ∀ i, outcomes i = true) (k : Nat) :
    runCrashes ⟨true, maxA⟩ outcomes k = (min k maxA, min k maxA) := by
  induction k with
  | zero => simp [runCrashes]
  | succ n ih =>
    rw [runCrashes, ih]
    unfold handle_browser_crash
    by_cases h : maxA ≤ n
    · have hmin : min n maxA = maxA := by omega
      have hmin' : min (n + 1) maxA = maxA := by omega
      simp [hmin, hmin']
    · have hmin : min n maxA = n := by omega
      have hmin' : min (n + 1) maxA = n + 1 := by omega
      simp [hmin, hmin', h, hsucc n]

/-- Claim C2 counterexample: with the cap at 2, crash recovery enabled
and the first restart attempt failing, three consecutive crashes execute
the restart action only once, not `max_restart_attempts = 2` times (a
failed restart maxes the counter out). -/
theorem c2_counterexample :
    2 < 3 ∧ (runCrashes ⟨true, 2⟩ (fun _ => false) 3).2 ≠ 2 := by
  constructor
  · decide
  · decide

/-- Claim C2 (amended): with crash recovery enabled and every executed
restart attempt succeeding, any `n > max_restart_attempts` consecutive
detected crashes execute the restart action exactly
`max_restart_attempts` times, and the count never grows on any further
crash after the cap is reached. -/
theorem c2_restart_cap (maxA n : Nat) (outcomes : Nat → Bool)
    (hsucc : ∀ i, outcomes i = true) (hn : maxA < n) :
    (runCrashes ⟨true, maxA⟩ outcomes n).2 = maxA ∧
    ∀ m, n ≤ m → (runCrashes ⟨true, maxA⟩ outcomes m).2 = maxA := by
  refine ⟨?_, fun m hm => ?_⟩
  · rw [runCrashes_all_succeed maxA outcomes hsucc n]
    simp only
    omega
  · rw [runCrashes_all_succeed maxA outcomes hsucc m]
    simp only
    omega

/-- Witness for C2 at a concrete input. -/
theorem c2_restart_cap_witness :
    (runCrashes ⟨true, 1⟩ (fun _ => true) 2).2 = 1 :=
  (c2_restart_cap 1 2 (fun _ => true) (fun _ => rfl) (by decide)).1

/-! ## Connection-retry lemma and theorem -/

/-- The retry loop of `connect_with_retry` against a port that never
becomes reachable, from any loop position: it performs one health check
per remaining attempt, sleeps the exponential-backoff schedule, and
finally raises the re-wrapped `ConnectionError` built from the last
health-check failure. -/
theorem connectGo_unreachable {β : Type} (d : Nat → String)
    (attach : Nat → Except String β) (port maxRetries : Nat)
    (retryDelay timeout : ℚ) (fuel attempt : Nat) (le : Option PAErr)
    (hsum : attempt + fuel = maxRetries + 1) (hle : attempt ≤ maxRetries) :
    connectGo (fun i => .unhealthy (d i)) attach port maxRetries retryDelay timeout
        fuel attempt le
      = ⟨fuel, (List.range' attempt (fuel - 1)).map (fun i => retryDelay * 2 ^ i),
         .error (unreachableFinalError port timeout (d maxRetries))⟩ := by
  induction fuel generalizing attempt le with
  | zero => omega
  | succ f ih =>
    rw [connectGo]
    dsimp only
    by_cases h : attempt < maxRetries
    · obtain ⟨f', rfl⟩ : ∃ f', f = f' + 1 := ⟨f - 1, by omega⟩
      rw [if_pos h, ih (attempt + 1) _ (by omega) (by omega)]
      simp only [Nat.add_sub_cancel, List.range'_succ, List.map_cons]
    · have ha : attempt = maxRetries := by omega
      have hf : f = 0 := by omega
      subst ha hf
      rw [if_neg h]
      simp [unreachableFinalError, List.range']

/-- Claim C1: against a port that never becomes reachable (every health
check fails, with `d i` the failure detail of attempt `i`),
`connect_with_retry` makes exactly `max_retries + 1` health-check
attempts, sleeps `retry_delay * 2 ^ attempt` between consecutive
attempts, and raises a `ConnectionError` built by wrapping the failure
of the last attempt (`d maxRetries`). -/
theorem c1_connect_with_retry_unreachable (port maxRetries : Nat)
    (retryDelay timeout : ℚ) (d : Nat → String) (attach : Nat → Except String Unit) :
    connect_with_retry (fun i => .unhealthy (d i)) attach port maxRetries retryDelay timeout
      = ⟨maxRetries + 1, (List.range maxRetries).map (fun i => retryDelay * 2 ^ i),
         .error (unreachableFinalError port timeout (d maxRetries))⟩ := by
  unfold connect_with_retry
  rw [connectGo_unreachable d attach port maxRetries retryDelay timeout
      (maxRetries + 1) 0 none (by omega) (by omega)]
  simp only [Nat.add_sub_cancel]
  rw [List.range_eq_range']

/-! ## Finder lemmas and theorem -/

/-- When the cached-path branch yields a hit, the hit is exactly the
stored cached path and it exists on disk. -/
theorem cachedLookup_some (fs : FS) (cache : Option String) (clOk uc : Bool)
    (q : String) (h : cachedLookup fs cache clOk uc = some q) :
    cache = some q ∧ fs.pathExists q = true := by
  unfold cachedLookup at h
  split at h
  · unfold get_chrome_path at h
    cases cache with
    | none => simp at h
    | some c0 =>
      by_cases he : fs.pathExists c0 = true
      · simp [he] at h
        subst h
        exact ⟨rfl, he⟩
      · simp [he] at h
  · simp at h

/-- Claim C4: whenever a locate succeeds, the found path is the cached
binary path in the store afterwards; a subsequent locate with
`use_cache = true` returns the same path without running the candidate
enumeration if the cached path still exists on disk, and falls through
to the full fresh candidate search if it no longer exists. -/
theorem c4_locate_cache_roundtrip (fs fs' : FS) (plat : Platform)
    (cands : List String) (cache : Option String) (clOk uc : Bool) (p : String)
    (hplat : plat ≠ .unsupported)
    (h1 : (find_chrome_executable fs plat cands cache clOk true uc).result = some p) :
    (find_chrome_executable fs plat cands cache clOk true uc).cacheAfter = some p ∧
    (fs'.pathExists p = true →
      find_chrome_executable fs' plat cands (some p) true true true
        = ⟨some p, some p, false⟩) ∧
    (fs'.pathExists p = false →
      (find_chrome_executable fs' plat cands (some p) true true true).searched = true ∧
      (find_chrome_executable fs' plat cands (some p) true true true).result
        = searchCandidates fs' (plat = .win32) cands) := by
  refine ⟨?_, fun hex => ?_, fun hex => ?_⟩
  · unfold find_chrome_executable at h1 ⊢
    cases hc : cachedLookup fs cache clOk uc with
    | some q =>
      rw [hc] at h1
      dsimp only at h1 ⊢
      obtain ⟨hcache, _⟩ := cachedLookup_some fs cache clOk uc q hc
      rw [hcache]
      exact h1
    | none =>
      rw [hc] at h1
      dsimp only at h1 ⊢
      rw [if_neg hplat] at h1 ⊢
      cases hs : searchCandidates fs (plat = Platform.win32) cands with
      | some q =>
        rw [hs] at h1
        dsimp only at h1 ⊢
        simpa using h1
      | none =>
        rw [hs] at h1
        simp at h1
  · unfold find_chrome_executable cachedLookup get_chrome_path
    simp [hex]
  · unfold find_chrome_executable cachedLookup get_chrome_path
    rw [if_neg hplat]
    simp only [hex]
    cases hs : searchCandidates fs' (plat = Platform.win32) cands with
    | some q => simp [hs]
    | none => simp [hs]

/-! ## Launcher lemmas and theorem -/

/-- If no poll ever finds the process, `wait_for_process_start` raises
the `TimeoutError`. -/
theorem wait_for_process_start_never (findProc : Nat → Option Nat)
    (port timeout : Nat) (h : ∀ k, findProc k = none) (fuel : Nat) :
    wait_for_process_start findProc port timeout fuel
      = .error (.timeoutError (waitTimeoutMsg port timeout)) := by
  induction fuel with
  | zero => rfl
  | succ f ih =>
    rw [wait_for_process_start, h f]
    exact ih

/-- If no poll ever finds the process, the whole poll window is used. -/
theorem pollsUsed_never (findProc : Nat → Option Nat)
    (h : ∀ k, findProc k = none) (fuel : Nat) :
    pollsUsed findProc fuel = fuel := by
  induction fuel with
  | zero => rfl
  | succ f ih =>
    rw [pollsUsed, h f]
    dsimp only
    rw [ih]
    omega

/-- Claim C5 counterexample: when the launched process stays alive but
the debug port never becomes reachable, the raised error is
`BrowserLaunchError` (wrapping the `TimeoutError`), not `TimeoutError`
as the claim states. -/
theorem c5_counterexample :
    (launch_chrome "chrome-linux64/chrome" ⟨true, none, fun _ => none, true⟩ 9222 30 3).outcome
      = .error (.browserLaunchError
          ("Chrome launch verification failed: " ++ timeoutErrorStr (waitTimeoutMsg 9222 30))) ∧
    isTimeoutError
      (launch_chrome "chrome-linux64/chrome" ⟨true, none, fun _ => none, true⟩ 9222 30 3).outcome
      = false := by
  constructor
  · rw [launch_chrome]
    rw [wait_for_process_start_never _ _ _ (fun _ => rfl) 3]
    rfl
  · rw [launch_chrome]
    rw [wait_for_process_start_never _ _ _ (fun _ => rfl) 3]
    rfl

/-- Claim C5 (amended): a launch whose process exits during the initial
grace period fails immediately with `BrowserLaunchError` and never polls
the port; a launch whose process stays alive while the port never
becomes reachable polls through the whole window, attempts best-effort
termination (the result holds for either value of `terminateOk`, so a
termination failure is never raised), and fails with
`BrowserLaunchError` wrapping the `TimeoutError`. -/
theorem c5_launch_failure_modes (path : String) (env : ProcEnv)
    (port timeout numPolls : Nat)
    (hname : launchNameOk path = true) (hspawn : env.spawnOk = true) :
    (∀ c, env.exitedDuringGrace = some c →
      launch_chrome path env port timeout numPolls
        = ⟨.error (.browserLaunchError
            ("Chrome process exited immediately with code " ++ toString c)), 0⟩) ∧
    (env.exitedDuringGrace = none → (∀ k, env.findProc k = none) →
      launch_chrome path env port timeout numPolls
        = ⟨.error (.browserLaunchError
            ("Chrome launch verification failed: " ++ timeoutErrorStr (waitTimeoutMsg port timeout))),
           numPolls⟩) := by
  constructor
  · intro c hc
    rw [launch_chrome, hname, hspawn, hc]
    rfl
  · intro hc hnever
    rw [launch_chrome, hname, hspawn, hc,
        wait_for_process_start_never _ _ _ hnever numPolls,
        pollsUsed_never _ hnever numPolls]
    rfl

/-- Witness for C5 at a concrete input (with a failing best-effort
termination, which is not raised). -/
theorem c5_launch_failure_modes_witness :
    launch_chrome "chrome-linux64/chrome" ⟨true, none, fun _ => none, false⟩ 9222 30 2
      = ⟨.error (.browserLaunchError
          ("Chrome launch verification failed: " ++ timeoutErrorStr (waitTimeoutMsg 9222 30))), 2⟩ :=
  (c5_launch_failure_modes "chrome-linux64/chrome" ⟨true, none, fun _ => none, false⟩
    9222 30 2 (by decide) rfl).2 rfl (fun _ => rfl)

/-- Witness for C4 at a concrete input. -/
theorem c4_locate_cache_roundtrip_witness :
    (find_chrome_executable ⟨fun s => s == "c1", fun s => s == "c1", fun s => s == "c1"⟩
        .linux ["c1"] none true true true).result = some "c1" ∧
    find_chrome_executable ⟨fun s => s == "c1", fun s => s == "c1", fun s => s == "c1"⟩
        .linux ["c1"] (some "c1") true true true = ⟨some "c1", some "c1", false⟩ :=
  ⟨by decide,
   (c4_locate_cache_roundtrip ⟨fun s => s == "c1", fun s => s == "c1", fun s => s == "c1"⟩
      ⟨fun s => s == "c1", fun s => s == "c1", fun s => s == "c1"⟩ .linux ["c1"] none true true
      "c1" (by decide) (by decide)).2.1 (by decide)⟩

end PlaywrightAuthor
